import Mathlib

/-!
Shallow embedding of the qrz-xml client library (src/src/client.rs, src/src/types.rs,
src/src/error.rs): the decoded response data model, the error enumeration, the
session state, and the request-orchestration functions (`login`,
`make_authenticated_request`, `lookup_callsign`, `lookup_dxcc_entity`,
`lookup_dxcc_by_callsign`, `session_info`).

The HTTP transport together with the XML decoder is abstracted into a network
oracle `Net : Nat → Except QrzXmlError QrzXmlResponse`: the n-th request issued
by the client receives the oracle's value at n, either a decoded envelope or a
transport/parse failure. A `World` carries the client's mutable `SessionState`
and the ordered log of the query-parameter lists sent so far, so theorems can
speak about how many requests an operation issued and with which parameters.
URL construction (`build_url`) is not modelled: it depends only on the fixed,
well-formed configuration and cannot fail on the default base URL; the claims
under study never mention it.

Machine integers: `u32` fields are modelled as `Nat` (they are never the target
of arithmetic that could overflow in the code under study); `f32`/`f64` numeric
fields that the claims touch are modelled over `Rat` with exact arithmetic, and
the spots where Rust floating-point rounding could diverge are noted at the
definition.
-/

/-- Contiguous-sublist test on character lists: the pattern occurs at some
position of the haystack. -/
def listInfix (pat : List Char) : List Char → Bool
  | [] => pat.isEmpty
  | c :: t => pat.isPrefixOf (c :: t) || listInfix pat t

/-- Substring test, modelling Rust `str::contains(&str)` (byte-level substring
search; on `String` as a list of characters this coincides for the patterns
used by the source, which are ASCII). -/
def containsSub (hay pat : String) : Bool :=
  listInfix pat.toList hay.toList

/-- Uppercasing, modelling Rust `str::to_uppercase` character by character
(agrees on ASCII, which is the alphabet of callsigns and of every string the
claims exercise). -/
def to_uppercase (s : String) : String :=
  String.mk (s.toList.map Char.toUpper)

/-- Rust `str::trim_start_matches(c)`: strip every leading occurrence of `c`. -/
def trim_start_matches (s : String) (c : Char) : String :=
  String.mk (s.toList.dropWhile (fun d => d == c))

/-- Character-count prefix, modelling byte slicing `s[..k]` (identical for the
ASCII strings the source slices; on a non-boundary the Rust code would panic,
which never happens for the digit strings fed to it). -/
def strTake (s : String) (k : Nat) : String :=
  String.mk (s.toList.take k)

/-- Character-count suffix, modelling byte slicing `s[k..]`. -/
def strDrop (s : String) (k : Nat) : String :=
  String.mk (s.toList.drop k)

/-- Decimal value of a digit list (most significant first). -/
def digitsVal (l : List Char) : Nat :=
  l.foldl (fun a c => a * 10 + (c.toNat - 48)) 0

/-- Rust `str::parse::<i32>()`: optional sign, at least one digit, all digits,
result within the `i32` range. -/
def parseI32 (s : String) : Option Int :=
  let cs := s.toList
  let signBody : Int × List Char :=
    match cs with
    | '-' :: rest => (-1, rest)
    | '+' :: rest => (1, rest)
    | _ => (1, cs)
  let sgn := signBody.1
  let body := signBody.2
  if body.isEmpty then none
  else if body.all Char.isDigit then
    let v : Int := sgn * (digitsVal body : Int)
    if -(2 ^ 31) ≤ v ∧ v ≤ 2 ^ 31 - 1 then some v else none
  else none

/-- Modelled from the source's `tz.parse::<f32>()` fallback, restricted to the
plain decimal numerals the timezone field carries and returning the exact
rational value. Rust would round to the nearest `f32`; at every input the
claims exercise the value is exactly representable, so the models agree
there. -/
def parseDecimalRat (s : String) : Option Rat :=
  let cs := s.toList
  let signBody : Rat × List Char :=
    match cs with
    | '-' :: rest => (-1, rest)
    | '+' :: rest => (1, rest)
    | _ => (1, cs)
  let sgn := signBody.1
  let body := signBody.2
  let intPart := body.takeWhile (fun c => c != '.')
  let rest := body.dropWhile (fun c => c != '.')
  if intPart.all Char.isDigit then
    match rest with
    | [] =>
      if intPart.isEmpty then none
      else some (sgn * (digitsVal intPart : Rat))
    | _ :: frac =>
      if frac.all Char.isDigit && !(intPart.isEmpty && frac.isEmpty) then
        some (sgn * ((digitsVal intPart : Rat) + (digitsVal frac : Rat) / (10 : Rat) ^ frac.length))
      else none
  else none

/-- Session block of a decoded response (types.rs `SessionInfo`); every field
is optional in the XML schema. -/
structure SessionInfo where
  key : Option String
  count : Option Nat
  sub_exp : Option String
  gm_time : Option String
  message : Option String
  error : Option String

/-- types.rs `SessionInfo::has_valid_session`: the key field is present. -/
def SessionInfo.has_valid_session (s : SessionInfo) : Bool :=
  s.key.isSome

/-- Callsign record (types.rs `CallsignInfo`); all fields optional but `call`.
Numeric f64 fields are modelled as `Rat` (never computed on here). -/
structure CallsignInfo where
  call : String
  xref : Option String
  aliases : Option String
  dxcc : Option Nat
  fname : Option String
  name : Option String
  addr1 : Option String
  addr2 : Option String
  state : Option String
  zip : Option String
  country : Option String
  ccode : Option Nat
  lat : Option Rat
  lon : Option Rat
  grid : Option String
  county : Option String
  fips : Option String
  land : Option String
  efdate : Option String
  expdate : Option String
  p_call : Option String
  -- source field `class` (licence class); renamed because `class` is a Lean keyword
  licClass : Option String
  codes : Option String
  qslmgr : Option String
  email : Option String
  url : Option String
  u_views : Option Nat
  bio : Option String
  biodate : Option String
  image : Option String
  imageinfo : Option String
  serial : Option Nat
  moddate : Option String
  msa : Option String
  area_code : Option String
  time_zone : Option String
  gmt_offset : Option String
  dst : Option String
  eqsl : Option String
  mqsl : Option String
  cqzone : Option Nat
  ituzone : Option Nat
  born : Option Nat
  user : Option String
  lotw : Option String
  iota : Option String
  geoloc : Option String
  attn : Option String
  nickname : Option String
  name_fmt : Option String

/-- DXCC record (types.rs `DxccInfo`); `dxcc` and `name` are the required
fields. -/
structure DxccInfo where
  dxcc : Nat
  cc : Option String
  ccc : Option String
  name : String
  continent : Option String
  ituzone : Option Nat
  cqzone : Option Nat
  timezone : Option String
  lat : Option Rat
  lon : Option Rat
  notes : Option String

/-- types.rs `DxccInfo::timezone_hours`: strip leading `+`; a string of three
or more characters whose head (all but the last two) and last two characters
both parse as `i32` is read as hours and minutes; anything else falls back to a
plain decimal parse. -/
def DxccInfo.timezone_hours (d : DxccInfo) : Option Rat :=
  d.timezone.bind fun tz0 =>
    let tz := trim_start_matches tz0 '+'
    let n := tz.toList.length
    if n ≥ 3 then
      match parseI32 (strTake tz (n - 2)), parseI32 (strDrop tz (n - 2)) with
      | some hours, some minutes => some ((hours : Rat) + (minutes : Rat) / 60)
      | _, _ => parseDecimalRat tz
    else parseDecimalRat tz

/-- Decoded XML envelope (types.rs `QrzXmlResponse`): one Session block plus at
most one callsign or DXCC record. -/
structure QrzXmlResponse where
  version : Option String
  xmlns : Option String
  session : SessionInfo
  callsign : Option CallsignInfo
  dxcc : Option DxccInfo

/-- error.rs `QrzXmlError`. The payloads of the three `#[from]` wrapper
variants (`reqwest::Error`, `quick_xml::DeError`, `url::ParseError`) are
modelled as their message strings. -/
inductive QrzXmlError where
  | network (message : String)
  | xmlParsing (message : String)
  | urlParsing (message : String)
  | apiError (message : String)
  | authenticationFailed (reason : String)
  | sessionExpired
  | callsignNotFound (callsign : String)
  | dxccNotFound (entity : String)
  | invalidInput (message : String)
  | connectionRefused
  | subscriptionRequired
  | rateLimitExceeded
  | noSessionKey
  | invalidApiVersion (version : String)
  | unexpectedResponse (message : String)
deriving DecidableEq

/-- error.rs `QrzXmlError::is_retryable`: Network, SessionExpired and
RateLimitExceeded are the temporary, retry-eligible failures. -/
def QrzXmlError.is_retryable : QrzXmlError → Bool
  | .network _ | .sessionExpired | .rateLimitExceeded => true
  | _ => false

/-- error.rs `QrzXmlError::is_permission_error`: SubscriptionRequired and
ConnectionRefused are the permission-class failures. -/
def QrzXmlError.is_permission_error : QrzXmlError → Bool
  | .subscriptionRequired | .connectionRefused => true
  | _ => false

/-- error.rs `QrzXmlError::should_reauthenticate`. -/
def QrzXmlError.should_reauthenticate : QrzXmlError → Bool
  | .sessionExpired | .noSessionKey => true
  | _ => false

/-- client.rs `SessionState`: the client's mutable session snapshot. -/
structure SessionState where
  key : Option String
  count : Option Nat
  sub_exp : Option String
deriving DecidableEq

/-- client.rs `SessionState::new`: all fields absent. -/
def SessionState.new : SessionState :=
  { key := none, count := none, sub_exp := none }

/-- client.rs `SessionState::update_from_session_info`: each field of the
incoming session record overwrites the stored field when present and is
ignored when absent. -/
def SessionState.update_from_session_info (st : SessionState) (s : SessionInfo) : SessionState :=
  let st1 := match s.key with
    | some k => { st with key := some k }
    | none => st
  let st2 := match s.count with
    | some c => { st1 with count := some c }
    | none => st1
  match s.sub_exp with
  | some x => { st2 with sub_exp := some x }
  | none => st2

/-- client.rs `SessionState::has_valid_session`. -/
def SessionState.has_valid_session (st : SessionState) : Bool :=
  st.key.isSome

/-- client.rs `SessionState::clear`: reset all three fields to absent. -/
def SessionState.clear (_ : SessionState) : SessionState :=
  { key := none, count := none, sub_exp := none }

/-- Credential part of client.rs `QrzXmlClient`: the username/password pair and
the user-agent string (`config.user_agent`) that the login request sends. The
HTTP client, timeout and API-version path only configure the abstracted
transport. -/
structure QrzXmlClient where
  username : String
  password : String
  agent : String

/-- One issued request, recorded as its ordered query-parameter list. -/
abbrev SentParams := List (String × String)

/-- Network oracle: the response (decoded envelope, or transport/parse error)
that the n-th request issued by the client receives. -/
abbrev Net := Nat → Except QrzXmlError QrzXmlResponse

/-- Mutable world of one client: its `SessionState` and the log of requests
issued so far, in order. -/
structure World where
  session : SessionState
  sent : List SentParams
deriving DecidableEq

/-- World of a freshly constructed client: empty session, nothing sent. -/
def World.init : World :=
  { session := SessionState.new, sent := [] }

/-- client.rs `make_request`: issue one HTTP GET with the given parameters and
decode the body; the transport and decoder are the oracle. -/
def make_request (net : Net) (w : World) (params : SentParams) :
    Except QrzXmlError QrzXmlResponse × World :=
  (net w.sent.length, { w with sent := w.sent ++ [params] })

/-- client.rs `QrzXmlClient::login`: send username/password/agent, classify an
embedded error string (Connection refused, then password/username, then any
other), require a session key, and update the stored session on success. -/
def login (C : QrzXmlClient) (net : Net) (w : World) :
    Except QrzXmlError SessionInfo × World :=
  match make_request net w
      [("username", C.username), ("password", C.password), ("agent", C.agent)] with
  | (.error e, w1) => (.error e, w1)
  | (.ok resp, w1) =>
    let si := resp.session
    match si.error with
    | some err =>
      if containsSub err "Connection refused" then (.error .connectionRefused, w1)
      else if containsSub err "password" || containsSub err "username" then
        (.error (.authenticationFailed err), w1)
      else (.error (.apiError err), w1)
    | none =>
      if !si.has_valid_session then (.error .noSessionKey, w1)
      else (.ok si, { w1 with session := w1.session.update_from_session_info si })

/-- Body of client.rs `make_authenticated_request` once the session key is in
hand (lines 357-388): send `s=key` plus the parameters, fold the response's
session fields into the stored state, then classify: a session-flavoured error
fails `SessionExpired`, any other error not containing "not found" fails
`ApiError`, and a response without a session key fails `SessionExpired`. -/
def authRequestWithKey (net : Net) (w : World) (key : String) (params : SentParams) :
    Except QrzXmlError QrzXmlResponse × World :=
  match make_request net w (("s", key) :: params) with
  | (.error e, w1) => (.error e, w1)
  | (.ok resp, w1) =>
    let w2 := { w1 with session := w1.session.update_from_session_info resp.session }
    match resp.session.error with
    | some err =>
      if containsSub err "Session Timeout" || containsSub err "session" then
        (.error .sessionExpired, w2)
      else if !containsSub err "not found" then (.error (.apiError err), w2)
      else if !resp.session.has_valid_session then (.error .sessionExpired, w2)
      else (.ok resp, w2)
    | none =>
      if !resp.session.has_valid_session then (.error .sessionExpired, w2)
      else (.ok resp, w2)

/-- client.rs `QrzXmlClient::make_authenticated_request`: snapshot the session
key; when absent, log in first and re-read it (`NoSessionKey` if still
absent); then perform the keyed request. -/
def make_authenticated_request (C : QrzXmlClient) (net : Net) (w : World)
    (params : SentParams) : Except QrzXmlError QrzXmlResponse × World :=
  match w.session.key with
  | some key => authRequestWithKey net w key params
  | none =>
    match login C net w with
    | (.error e, w1) => (.error e, w1)
    | (.ok _, w1) =>
      match w1.session.key with
      | some key => authRequestWithKey net w1 key params
      | none => (.error .noSessionKey, w1)

/-- The `let response = match ...` block of client.rs `lookup_callsign` (lines
147-164), taking the already-uppercased callsign: one authenticated request;
on `SessionExpired` clear the session, log in, and run the authenticated
request once more; every other failure, and any failure of the retry,
propagates. -/
def lookup_callsign_attempt (C : QrzXmlClient) (net : Net) (w : World) (cs : String) :
    Except QrzXmlError QrzXmlResponse × World :=
  match make_authenticated_request C net w [("callsign", cs)] with
  | (.ok resp, w1) => (.ok resp, w1)
  | (.error .sessionExpired, w1) =>
    let w2 := { w1 with session := w1.session.clear }
    match login C net w2 with
    | (.error e, w3) => (.error e, w3)
    | (.ok _, w3) => make_authenticated_request C net w3 [("callsign", cs)]
  | (.error e, w1) => (.error e, w1)

/-- client.rs `QrzXmlClient::lookup_callsign`: reject the empty callsign,
uppercase, perform the attempt-with-one-retry, then translate a record-less
envelope into `CallsignNotFound` (embedded error containing "not found"),
`ApiError` (other embedded error) or `UnexpectedResponse` (no embedded
error). -/
def lookup_callsign (C : QrzXmlClient) (net : Net) (w : World) (callsign : String) :
    Except QrzXmlError CallsignInfo × World :=
  if callsign.isEmpty then (.error (.invalidInput "Callsign cannot be empty"), w)
  else
    let cs := to_uppercase callsign
    match lookup_callsign_attempt C net w cs with
    | (.error e, w1) => (.error e, w1)
    | (.ok resp, w1) =>
      match resp.callsign with
      | some info => (.ok info, w1)
      | none =>
        match resp.session.error with
        | some err =>
          if containsSub err "not found" then (.error (.callsignNotFound cs), w1)
          else (.error (.apiError err), w1)
        | none => (.error (.unexpectedResponse "No callsign data in response"), w1)

/-- client.rs `QrzXmlClient::lookup_dxcc_entity`: one authenticated request
keyed on the entity number (failures propagate, with no retry wrapper); a
record-less envelope fails `DxccNotFound` when an embedded error is present
and `UnexpectedResponse` otherwise. -/
def lookup_dxcc_entity (C : QrzXmlClient) (net : Net) (w : World) (entity : Nat) :
    Except QrzXmlError DxccInfo × World :=
  let entity_str := Nat.repr entity
  match make_authenticated_request C net w [("dxcc", entity_str)] with
  | (.error e, w1) => (.error e, w1)
  | (.ok resp, w1) =>
    match resp.dxcc with
    | some info => (.ok info, w1)
    | none =>
      match resp.session.error with
      | some _ => (.error (.dxccNotFound entity_str), w1)
      | none => (.error (.unexpectedResponse "No DXCC data in response"), w1)

/-- client.rs `QrzXmlClient::lookup_dxcc_by_callsign`: reject the empty
callsign, uppercase, one authenticated request keyed on the callsign (failures
propagate, with no retry wrapper); record-less envelopes map as in
`lookup_dxcc_entity` but carrying the uppercased callsign. -/
def lookup_dxcc_by_callsign (C : QrzXmlClient) (net : Net) (w : World) (callsign : String) :
    Except QrzXmlError DxccInfo × World :=
  if callsign.isEmpty then (.error (.invalidInput "Callsign cannot be empty"), w)
  else
    let cs := to_uppercase callsign
    match make_authenticated_request C net w [("dxcc", cs)] with
    | (.error e, w1) => (.error e, w1)
    | (.ok resp, w1) =>
      match resp.dxcc with
      | some info => (.ok info, w1)
      | none =>
        match resp.session.error with
        | some _ => (.error (.dxccNotFound cs), w1)
        | none => (.error (.unexpectedResponse "No DXCC data in response"), w1)

/-- client.rs `QrzXmlClient::session_info`: snapshot of the stored lookup
count and subscription-expiry string (always `some` of the pair). -/
def session_info (w : World) : Option (Option Nat × Option String) :=
  some (w.session.count, w.session.sub_exp)

/-- client.rs `QrzXmlClient::is_authenticated`. -/
def is_authenticated (w : World) : Bool :=
  w.session.has_valid_session

/-- World right after `login` has sent its single request. -/
def after_login_request (C : QrzXmlClient) (w : World) : World :=
  { w with sent := w.sent ++ [[("username", C.username), ("password", C.password), ("agent", C.agent)]] }

/-! ## Claims -/

/-- C10: for every `QrzXmlError` value, `is_retryable` and `is_permission_error`
are never both true; the retry-eligible variants (Network, SessionExpired,
RateLimitExceeded) and the permission-class variants (SubscriptionRequired,
ConnectionRefused) are disjoint sets. -/
theorem retryable_permission_disjoint :
    (∀ e : QrzXmlError, (e.is_retryable && e.is_permission_error) = false) ∧
    (∀ m, (QrzXmlError.network m).is_retryable = true) ∧
    QrzXmlError.sessionExpired.is_retryable = true ∧
    QrzXmlError.rateLimitExceeded.is_retryable = true ∧
    QrzXmlError.subscriptionRequired.is_permission_error = true ∧
    QrzXmlError.connectionRefused.is_permission_error = true := by
  refine ⟨fun e => ?_, fun m => rfl, rfl, rfl, rfl, rfl⟩
  cases e <;> rfl

/-- C5: `update_from_session_info` replaces exactly the fields present in the
incoming session record: a present key/count/expiry overwrites the stored
value, an absent one leaves it unchanged. -/
theorem update_replaces_present_fields (st : SessionState) (s : SessionInfo) :
    (st.update_from_session_info s).key
        = (match s.key with | some k => some k | none => st.key) ∧
    (st.update_from_session_info s).count
        = (match s.count with | some c => some c | none => st.count) ∧
    (st.update_from_session_info s).sub_exp
        = (match s.sub_exp with | some x => some x | none => st.sub_exp) := by
  rcases s with ⟨k, c, x, g, m, e⟩
  cases k <;> cases c <;> cases x <;>
    simp [SessionState.update_from_session_info]

/-- C6: `lookup_callsign` on the empty string fails `InvalidInput` and returns
the world unchanged: the session state is untouched and the request log shows
that no HTTP request was issued. -/
theorem lookup_callsign_empty_no_network (C : QrzXmlClient) (net : Net) (w : World) :
    lookup_callsign C net w "" = (.error (.invalidInput "Callsign cannot be empty"), w) :=
  rfl

/-- C8: `session_info` on a freshly constructed client returns `(none, none)`;
after one successful login whose response carries `Count = 42` and
`SubExp = "X"`, the login returns the session record and `session_info`
returns `(some 42, some "X")`. -/
theorem session_info_before_and_after_login (C : QrzXmlClient) (k : String)
    (gm msg ver xm : Option String) :
    session_info World.init = some (none, none) ∧
    login C
        (fun _ => .ok
          { version := ver, xmlns := xm,
            session := { key := some k, count := some 42, sub_exp := some "X",
                         gm_time := gm, message := msg, error := none },
            callsign := none, dxcc := none })
        World.init
      = (.ok { key := some k, count := some 42, sub_exp := some "X",
               gm_time := gm, message := msg, error := none },
         { session := { key := some k, count := some 42, sub_exp := some "X" },
           sent := [[("username", C.username), ("password", C.password), ("agent", C.agent)]] }) ∧
    session_info
        { session := { key := some k, count := some 42, sub_exp := some "X" },
          sent := [[("username", C.username), ("password", C.password), ("agent", C.agent)]] }
      = some (some 42, some "X") :=
  ⟨rfl, rfl, rfl⟩

/-- C9: `timezone_hours` parses the timezone string "545" as 5 hours 45
minutes, i.e. 5.75 hours, and "-5" as -5.0 hours, whatever the other fields of
the DXCC record are. -/
theorem dxcc_timezone_hours_scenario (d e : DxccInfo) :
    ({d with timezone := some "545"} : DxccInfo).timezone_hours = some (5.75 : Rat) ∧
    ({e with timezone := some "-5"} : DxccInfo).timezone_hours = some (-5.0 : Rat) := by
  constructor
  · have h : ({d with timezone := some "545"} : DxccInfo).timezone_hours
        = some (((5 : Int) : Rat) + ((45 : Int) : Rat) / 60) := rfl
    rw [h]
    norm_num
  · have h : ({e with timezone := some "-5"} : DxccInfo).timezone_hours
        = some ((-1 : Rat) * ((5 : Nat) : Rat)) := rfl
    rw [h]
    norm_num

/-! ## Concrete fixtures for witnesses and counterexamples -/

/-- A client with fixed credentials. -/
def C0 : QrzXmlClient := { username := "u", password := "p", agent := "a" }

/-- Oracle answering every request with the same envelope. -/
def constNet (resp : QrzXmlResponse) : Net := fun _ => .ok resp

/-- Envelope whose session block carries only the error "Session Timeout"
(no key, no record). -/
def timeoutResp : QrzXmlResponse :=
  { version := none, xmlns := none,
    session := { key := none, count := none, sub_exp := none, gm_time := none,
                 message := none, error := some "Session Timeout" },
    callsign := none, dxcc := none }

/-- Envelope of a successful login handing out the key "K2". -/
def loginOkResp : QrzXmlResponse :=
  { version := none, xmlns := none,
    session := { key := some "K2", count := none, sub_exp := none, gm_time := none,
                 message := none, error := none },
    callsign := none, dxcc := none }

/-- Envelope with a valid key, a "not found" error and no record. -/
def notFoundResp : QrzXmlResponse :=
  { version := none, xmlns := none,
    session := { key := some "K2", count := none, sub_exp := none, gm_time := none,
                 message := none, error := some "W1AW: not found" },
    callsign := none, dxcc := none }

/-- Envelope whose session block has an empty-but-present key and no error. -/
def emptyKeyResp : QrzXmlResponse :=
  { version := none, xmlns := none,
    session := { key := some "", count := none, sub_exp := none, gm_time := none,
                 message := none, error := none },
    callsign := none, dxcc := none }

/-- Envelope whose session block is entirely absent fields (no key, no error). -/
def noKeyResp : QrzXmlResponse :=
  { version := none, xmlns := none,
    session := { key := none, count := none, sub_exp := none, gm_time := none,
                 message := none, error := none },
    callsign := none, dxcc := none }

/-- Envelope whose session error is "Connection refused". -/
def connRefusedResp : QrzXmlResponse :=
  { version := none, xmlns := none,
    session := { key := none, count := none, sub_exp := none, gm_time := none,
                 message := none, error := some "Connection refused" },
    callsign := none, dxcc := none }

/-- Oracle for the retry scenario: the second request (index 1, the re-login)
succeeds with a fresh key, every other request reports a session timeout. -/
def retryNet : Net := fun n => if n == 1 then .ok loginOkResp else .ok timeoutResp

/-- A world already holding the session key "K", nothing sent yet. -/
def w0 : World :=
  { session := { key := some "K", count := none, sub_exp := none }, sent := [] }

/-! ## Claims about login and the authenticated request -/

/-- C3 counterexample: a login response with no error whose `Key` is present
but empty is accepted by `login` (the code checks only presence of the key via
`has_valid_session`), rather than failing `NoSessionKey` as "a response
without a non-empty session token fails NoSessionKey" requires. -/
theorem login_empty_key_accepted :
    login C0 (constNet emptyKeyResp) World.init
      = (.ok { key := some "", count := none, sub_exp := none, gm_time := none,
               message := none, error := none },
         { session := { key := some "", count := none, sub_exp := none },
           sent := [[("username", "u"), ("password", "p"), ("agent", "a")]] }) :=
  rfl

/-- C3 amended: `login` classifies an embedded error string in order
("Connection refused", then "password"/"username", then any other present
string); with no error, a response whose session token is absent fails
`NoSessionKey` (a present token, even the empty string, is accepted), and
otherwise login succeeds with the session record and updates the stored
session state from it. -/
theorem login_classification (C : QrzXmlClient) (net : Net) (w : World)
    (resp : QrzXmlResponse) (hresp : net w.sent.length = Except.ok resp) :
    (∀ e, resp.session.error = some e → containsSub e "Connection refused" = true →
        login C net w = (.error .connectionRefused, after_login_request C w)) ∧
    (∀ e, resp.session.error = some e → containsSub e "Connection refused" = false →
        (containsSub e "password" || containsSub e "username") = true →
        login C net w = (.error (.authenticationFailed e), after_login_request C w)) ∧
    (∀ e, resp.session.error = some e → containsSub e "Connection refused" = false →
        (containsSub e "password" || containsSub e "username") = false →
        login C net w = (.error (.apiError e), after_login_request C w)) ∧
    (resp.session.error = none → resp.session.key = none →
        login C net w = (.error .noSessionKey, after_login_request C w)) ∧
    (∀ k, resp.session.error = none → resp.session.key = some k →
        login C net w = (.ok resp.session,
          { after_login_request C w with
            session := (after_login_request C w).session.update_from_session_info
              resp.session })) := by
  unfold login make_request after_login_request
  simp only [hresp]
  refine ⟨fun e he hc => ?_, fun e he hc hpw => ?_, fun e he hc hpw => ?_,
          fun he hk => ?_, fun k he hk => ?_⟩
  · simp only [he, hc, if_true]
  · simp only [he, hc, hpw, Bool.false_eq_true, if_false, if_true]
  · simp only [he, hc, hpw, Bool.false_eq_true, if_false]
  · simp only [he, SessionInfo.has_valid_session, hk, Option.isSome_none,
      Bool.not_false, if_true]
  · simp only [he, SessionInfo.has_valid_session, hk, Option.isSome_some,
      Bool.not_true, Bool.false_eq_true, if_false]

/-- C3 witness instantiating the amended classification: a login answered with
a "Connection refused" error fails `ConnectionRefused`. -/
theorem login_classification_witness :
    login C0 (constNet connRefusedResp) World.init
      = (.error .connectionRefused, after_login_request C0 World.init) :=
  (login_classification C0 (constNet connRefusedResp) World.init connRefusedResp
    rfl).1 "Connection refused" rfl rfl

/-- C4: an authenticated request whose decoded response carries no session key
fails `SessionExpired` whenever the embedded error (if any) matches no more
specific classification, i.e. would not be turned into an `ApiError` first.
The stored session is still updated from the response's (keyless) session
block and exactly one request went out. -/
theorem auth_request_missing_key_session_expired (C : QrzXmlClient) (net : Net)
    (w : World) (params : SentParams) (key : String) (resp : QrzXmlResponse)
    (hkey : w.session.key = some key)
    (hresp : net w.sent.length = Except.ok resp)
    (hnokey : resp.session.key = none)
    (herr : ∀ e, resp.session.error = some e →
        (containsSub e "Session Timeout" || containsSub e "session") = true ∨
          containsSub e "not found" = true) :
    make_authenticated_request C net w params
      = (.error .sessionExpired,
         { session := w.session.update_from_session_info resp.session,
           sent := w.sent ++ [("s", key) :: params] }) := by
  unfold make_authenticated_request
  simp only [hkey]
  unfold authRequestWithKey make_request
  simp only [hresp]
  cases he : resp.session.error with
  | none =>
    simp only [he, SessionInfo.has_valid_session, hnokey, Option.isSome_none,
      Bool.not_false, if_true]
  | some e =>
    rcases herr e he with h | h
    · simp only [he, h, if_true]
    · by_cases h2 : (containsSub e "Session Timeout" || containsSub e "session") = true
      · simp only [he, h2, if_true]
      · simp only [he, h2, if_false, h, Bool.not_true, Bool.false_eq_true,
          SessionInfo.has_valid_session, hnokey, Option.isSome_none, Bool.not_false, if_true]

/-- C4 witness: a keyed request answered by an envelope with neither key nor
error fails `SessionExpired`. -/
theorem auth_request_missing_key_session_expired_witness :
    make_authenticated_request C0 (constNet noKeyResp) w0 []
      = (.error .sessionExpired,
         { session := w0.session.update_from_session_info noKeyResp.session,
           sent := w0.sent ++ [[("s", "K")]] }) :=
  auth_request_missing_key_session_expired C0 (constNet noKeyResp) w0 [] "K" noKeyResp
    rfl rfl rfl (fun _ he => Option.noConfusion he)

/-! ## Shape of envelopes surviving an authenticated request -/

/-- Any envelope returned (rather than raised) by the keyed request body has
either no embedded error or one containing "not found": every other error was
already classified and raised. -/
theorem authRequestWithKey_ok_shape (net : Net) (w : World) (key : String)
    (params : SentParams) (resp : QrzXmlResponse) (w1 : World)
    (h : authRequestWithKey net w key params = (.ok resp, w1)) :
    resp.session.error = none ∨
      ∃ e, resp.session.error = some e ∧ containsSub e "not found" = true := by
  unfold authRequestWithKey make_request at h
  cases hn : net w.sent.length with
  | error e2 =>
    rw [hn] at h
    simp at h
  | ok r =>
    simp only [hn] at h
    cases he : r.session.error with
    | none =>
      simp only [he] at h
      by_cases hv : r.session.has_valid_session = true
      · simp only [hv, Bool.not_true, Bool.false_eq_true, if_false, Prod.mk.injEq,
          Except.ok.injEq] at h
        left
        rw [← h.1]
        exact he
      · rw [if_pos (by simp [Bool.not_eq_true] at hv ⊢; exact hv)] at h
        simp at h
    | some e =>
      simp only [he] at h
      by_cases h1 : (containsSub e "Session Timeout" || containsSub e "session") = true
      · rw [if_pos h1] at h
        simp at h
      · rw [if_neg h1] at h
        by_cases h2 : containsSub e "not found" = true
        · rw [if_neg (by simp [h2])] at h
          by_cases hv : r.session.has_valid_session = true
          · rw [if_neg (by simp [hv])] at h
            simp only [Prod.mk.injEq, Except.ok.injEq] at h
            right
            exact ⟨e, by rw [← h.1]; exact he, h2⟩
          · rw [if_pos (by simp [Bool.not_eq_true] at hv ⊢; exact hv)] at h
            simp at h
        · rw [if_pos (by simp [Bool.not_eq_true] at h2 ⊢; exact h2)] at h
          simp at h

/-- The shape of `authRequestWithKey_ok_shape` lifts through the key-snapshot
and lazy-login wrapper. -/
theorem make_authenticated_request_ok_shape (C : QrzXmlClient) (net : Net)
    (w : World) (params : SentParams) (resp : QrzXmlResponse) (w1 : World)
    (h : make_authenticated_request C net w params = (.ok resp, w1)) :
    resp.session.error = none ∨
      ∃ e, resp.session.error = some e ∧ containsSub e "not found" = true := by
  unfold make_authenticated_request at h
  cases hk : w.session.key with
  | some key =>
    simp only [hk] at h
    exact authRequestWithKey_ok_shape net w key params resp w1 h
  | none =>
    simp only [hk] at h
    cases hl : login C net w with
    | mk lr w2 =>
      cases lr with
      | error e2 =>
        simp only [hl] at h
        simp at h
      | ok si =>
        simp only [hl] at h
        cases hk2 : w2.session.key with
        | some key2 =>
          simp only [hk2] at h
          exact authRequestWithKey_ok_shape net w2 key2 params resp w1 h
        | none =>
          simp only [hk2] at h
          simp at h

/-- The shape of `authRequestWithKey_ok_shape` lifts through the
one-retry-on-expiry wrapper of `lookup_callsign`. -/
theorem lookup_callsign_attempt_ok_shape (C : QrzXmlClient) (net : Net)
    (w : World) (cs : String) (resp : QrzXmlResponse) (w1 : World)
    (h : lookup_callsign_attempt C net w cs = (.ok resp, w1)) :
    resp.session.error = none ∨
      ∃ e, resp.session.error = some e ∧ containsSub e "not found" = true := by
  unfold lookup_callsign_attempt at h
  cases ha : make_authenticated_request C net w [("callsign", cs)] with
  | mk r wa =>
    cases r with
    | ok r0 =>
      simp only [ha, Prod.mk.injEq, Except.ok.injEq] at h
      have hsh := make_authenticated_request_ok_shape C net w [("callsign", cs)] r0 wa ha
      rw [← h.1]
      exact hsh
    | error e0 =>
      cases e0
      case sessionExpired =>
        simp only [ha] at h
        cases hl : login C net { wa with session := wa.session.clear } with
        | mk lr w2 =>
          cases lr with
          | error e2 =>
            simp only [hl] at h
            simp at h
          | ok si =>
            simp only [hl] at h
            exact make_authenticated_request_ok_shape C net w2 [("callsign", cs)] resp w1 h
      all_goals
        simp only [ha] at h
        simp at h

/-! ## Claims about the lookup operations -/

/-- C1: when the first authenticated request of `lookup_callsign` fails
`SessionExpired`, the operation clears the session state, performs `login`,
issues the authenticated request exactly once more, and any failure of that
single retry (a second `SessionExpired` included) is the operation's result:
the returned world is the one produced by the single retry, so no further
request follows it. -/
theorem lookup_callsign_retries_once (C : QrzXmlClient) (net : Net)
    (w w1 w2 w3 : World) (cs : String) (si : SessionInfo) (e : QrzXmlError)
    (hne : cs.isEmpty = false)
    (h1 : make_authenticated_request C net w [("callsign", to_uppercase cs)]
        = (.error .sessionExpired, w1))
    (h2 : login C net { w1 with session := w1.session.clear } = (.ok si, w2))
    (h3 : make_authenticated_request C net w2 [("callsign", to_uppercase cs)]
        = (.error e, w3)) :
    lookup_callsign C net w cs = (.error e, w3) := by
  unfold lookup_callsign lookup_callsign_attempt
  simp only [hne, Bool.false_eq_true, if_false, h1, h2, h3]

/-- C1 witness: with a key in hand, a first request answered "Session
Timeout", a successful re-login, and a retry again answered "Session
Timeout", the lookup fails `SessionExpired` after exactly three requests
(first attempt, login, single retry). -/
theorem lookup_callsign_retries_once_witness :
    lookup_callsign C0 retryNet w0 "w1aw"
      = (.error .sessionExpired,
         { session := { key := some "K2", count := none, sub_exp := none },
           sent := [[("s", "K"), ("callsign", "W1AW")],
                    [("username", "u"), ("password", "p"), ("agent", "a")],
                    [("s", "K2"), ("callsign", "W1AW")]] }) :=
  lookup_callsign_retries_once C0 retryNet w0
    { session := { key := some "K", count := none, sub_exp := none },
      sent := [[("s", "K"), ("callsign", "W1AW")]] }
    { session := { key := some "K2", count := none, sub_exp := none },
      sent := [[("s", "K"), ("callsign", "W1AW")],
               [("username", "u"), ("password", "p"), ("agent", "a")]] }
    { session := { key := some "K2", count := none, sub_exp := none },
      sent := [[("s", "K"), ("callsign", "W1AW")],
               [("username", "u"), ("password", "p"), ("agent", "a")],
               [("s", "K2"), ("callsign", "W1AW")]] }
    "w1aw" loginOkResp.session .sessionExpired rfl rfl rfl rfl

/-- C2 counterexample: a DXCC-entity lookup whose (single) authenticated
request fails `SessionExpired` simply propagates that failure: the final world
shows one request sent, no login issued, and the session key neither cleared
nor replaced — there is no clear/re-login/retry step as the claim asserts. -/
theorem lookup_dxcc_entity_no_retry_counterexample :
    lookup_dxcc_entity C0 (constNet timeoutResp) w0 5
      = (.error .sessionExpired,
         { session := { key := some "K", count := none, sub_exp := none },
           sent := [[("s", "K"), ("dxcc", "5")]] }) :=
  rfl

/-- C2 amended: the DXCC lookups issue exactly one authenticated request keyed
on the `dxcc` parameter and propagate every failure of it — `SessionExpired`
included — without clearing the session, re-logging-in or retrying; an
envelope with no DXCC record and a present embedded error fails `DxccNotFound`
carrying the requested entity number or uppercased callsign. -/
theorem lookup_dxcc_propagates_and_maps_not_found (C : QrzXmlClient)
    (net net2 : Net) (w v : World) (entity : Nat) (cs cs2 : String)
    (e e2 : QrzXmlError) (w1 w2 v1 v2 : World) (resp resp2 : QrzXmlResponse)
    (err err2 : String)
    (hcs : cs.isEmpty = false) (hcs2 : cs2.isEmpty = false)
    (h1 : make_authenticated_request C net w [("dxcc", Nat.repr entity)] = (.error e, w1))
    (h2 : make_authenticated_request C net w [("dxcc", to_uppercase cs)] = (.error e2, w2))
    (h3 : make_authenticated_request C net2 v [("dxcc", Nat.repr entity)] = (.ok resp, v1))
    (h4 : resp.dxcc = none) (h5 : resp.session.error = some err)
    (h6 : make_authenticated_request C net2 v [("dxcc", to_uppercase cs2)] = (.ok resp2, v2))
    (h7 : resp2.dxcc = none) (h8 : resp2.session.error = some err2) :
    lookup_dxcc_entity C net w entity = (.error e, w1) ∧
    lookup_dxcc_by_callsign C net w cs = (.error e2, w2) ∧
    lookup_dxcc_entity C net2 v entity = (.error (.dxccNotFound (Nat.repr entity)), v1) ∧
    lookup_dxcc_by_callsign C net2 v cs2
      = (.error (.dxccNotFound (to_uppercase cs2)), v2) := by
  refine ⟨?_, ?_, ?_, ?_⟩
  · unfold lookup_dxcc_entity
    simp only [h1]
  · unfold lookup_dxcc_by_callsign
    simp only [hcs, Bool.false_eq_true, if_false, h2]
  · unfold lookup_dxcc_entity
    simp only [h3, h4, h5]
  · unfold lookup_dxcc_by_callsign
    simp only [hcs2, Bool.false_eq_true, if_false, h6, h7, h8]

/-- C2 witness: session-timeout answers propagate unchanged out of both DXCC
lookups, and record-less "not found" answers map to `DxccNotFound` carrying
the entity number or uppercased callsign. -/
theorem lookup_dxcc_propagates_and_maps_not_found_witness :
    lookup_dxcc_entity C0 (constNet timeoutResp) w0 5
      = (.error .sessionExpired,
         { session := { key := some "K", count := none, sub_exp := none },
           sent := [[("s", "K"), ("dxcc", "5")]] }) ∧
    lookup_dxcc_by_callsign C0 (constNet timeoutResp) w0 "ab"
      = (.error .sessionExpired,
         { session := { key := some "K", count := none, sub_exp := none },
           sent := [[("s", "K"), ("dxcc", "AB")]] }) ∧
    lookup_dxcc_entity C0 (constNet notFoundResp) w0 5
      = (.error (.dxccNotFound (Nat.repr 5)),
         { session := { key := some "K2", count := none, sub_exp := none },
           sent := [[("s", "K"), ("dxcc", "5")]] }) ∧
    lookup_dxcc_by_callsign C0 (constNet notFoundResp) w0 "cd"
      = (.error (.dxccNotFound (to_uppercase "cd")),
         { session := { key := some "K2", count := none, sub_exp := none },
           sent := [[("s", "K"), ("dxcc", "CD")]] }) :=
  lookup_dxcc_propagates_and_maps_not_found C0 (constNet timeoutResp)
    (constNet notFoundResp) w0 w0 5 "ab" "cd" .sessionExpired .sessionExpired
    { session := { key := some "K", count := none, sub_exp := none },
      sent := [[("s", "K"), ("dxcc", "5")]] }
    { session := { key := some "K", count := none, sub_exp := none },
      sent := [[("s", "K"), ("dxcc", "AB")]] }
    { session := { key := some "K2", count := none, sub_exp := none },
      sent := [[("s", "K"), ("dxcc", "5")]] }
    { session := { key := some "K2", count := none, sub_exp := none },
      sent := [[("s", "K"), ("dxcc", "CD")]] }
    notFoundResp notFoundResp "W1AW: not found" "W1AW: not found"
    rfl rfl rfl rfl rfl rfl rfl rfl rfl rfl

/-- C7: when the envelope returned by the attempt phase (first authenticated
request, or its single retry) carries no callsign record, `lookup_callsign`
fails `CallsignNotFound` with the uppercased input whenever the embedded
session error is present — such an error necessarily contains "not found",
since other errors were classified earlier — and fails `UnexpectedResponse`
when no embedded error is present. -/
theorem lookup_callsign_not_found_mapping (C : QrzXmlClient) (net : Net)
    (w w1 : World) (cs : String) (resp : QrzXmlResponse)
    (hne : cs.isEmpty = false)
    (hatt : lookup_callsign_attempt C net w (to_uppercase cs) = (.ok resp, w1))
    (hnone : resp.callsign = none) :
    (∀ e, resp.session.error = some e → containsSub e "not found" = true ∧
        lookup_callsign C net w cs
          = (.error (.callsignNotFound (to_uppercase cs)), w1)) ∧
    (resp.session.error = none →
        lookup_callsign C net w cs
          = (.error (.unexpectedResponse "No callsign data in response"), w1)) := by
  have hsh := lookup_callsign_attempt_ok_shape C net w (to_uppercase cs) resp w1 hatt
  constructor
  · intro e he
    have hc : containsSub e "not found" = true := by
      rcases hsh with h0 | ⟨e2, he2, hc2⟩
      · rw [h0] at he
        exact Option.noConfusion he
      · rw [he2] at he
        injection he with heq
        rw [← heq]
        exact hc2
    refine ⟨hc, ?_⟩
    unfold lookup_callsign
    simp only [hne, Bool.false_eq_true, if_false, hatt, hnone, he, hc, if_true]
  · intro he
    unfold lookup_callsign
    simp only [hne, Bool.false_eq_true, if_false, hatt, hnone, he]

/-- C7 witness: a record-less envelope with the error "W1AW: not found" makes
the lookup fail `CallsignNotFound` carrying the uppercased input. -/
theorem lookup_callsign_not_found_mapping_witness :
    containsSub "W1AW: not found" "not found" = true ∧
    lookup_callsign C0 (constNet notFoundResp) w0 "w1aw"
      = (.error (.callsignNotFound (to_uppercase "w1aw")),
         { session := { key := some "K2", count := none, sub_exp := none },
           sent := [[("s", "K"), ("callsign", "W1AW")]] }) :=
  (lookup_callsign_not_found_mapping C0 (constNet notFoundResp) w0
      { session := { key := some "K2", count := none, sub_exp := none },
        sent := [[("s", "K"), ("callsign", "W1AW")]] }
      "w1aw" notFoundResp rfl rfl rfl).1 "W1AW: not found" rfl
